import Mathlib

/-!
Shallow embedding of `src/f1_dashboard_data.py` (function `process_f1_data`).

Tables are lists of row structures.  A CSV cell that may hold a numeric
value or a textual placeholder (such as "R" for retired) is a `Cell`;
`pd.to_numeric(..., errors='coerce')` is `to_numeric` (placeholders become
`none`, i.e. NaN).  `pd.merge(..., how='inner')` is a flatMap over the left
table of the matching right rows; `how='left'` keeps every left row,
attaching `none` when no right row matches.  `groupby(k)[c].agg` is
`groupAgg`: one output row per distinct key, aggregating the column values
of that key's rows; pandas drops NaN group keys, which `groupAggDropna`
models for the `Option`-valued `driverName` key of stage 1.  The in-place
assignment `results_df['points'] = pd.to_numeric(results_df['points'], ...)`
(lines 99 and 113) is modeled by explicit rebinding: stage 4 reads
`results_df_after_driver_points` and stage 5 reads the twice-coerced table.
-/

inductive Cell where
  | num (q : Rat)
  | str (s : String)
  | nan
deriving DecidableEq

/-- `pd.to_numeric(c, errors='coerce')` viewed as a parse-to-optional-number:
numeric cells survive, textual placeholders and NaN coerce to `none`. -/
def to_numeric : Cell → Option Rat
  | .num q => some q
  | .str _ => none
  | .nan => none

/-- The cell after an in-place `pd.to_numeric` coercion of its column:
a numeric cell stays, anything else becomes NaN. -/
def coerce_cell (c : Cell) : Cell :=
  match to_numeric c with
  | some q => .num q
  | none => .nan

structure DriverRow where
  driverId : Int
  forename : String
  surname : String
deriving DecidableEq

structure RaceRow where
  raceId : Int
deriving DecidableEq

structure ResultRow where
  raceId : Int
  driverId : Int
  constructorId : Int
  positionOrder : Cell
  points : Cell
deriving DecidableEq

structure QualifyingRow where
  raceId : Int
  driverId : Int
  position : Cell
deriving DecidableEq

structure ConstructorRow where
  constructorId : Int
  name : String
deriving DecidableEq

/-- Arithmetic mean, as pandas `.mean()` over the group's values. -/
def meanOf (xs : List Rat) : Rat := xs.sum / xs.length

/-- pandas `.sum()` over a group's cells: NaN values are skipped, the empty
group sums to 0. -/
def sum_points (xs : List Cell) : Rat := (xs.filterMap to_numeric).sum

/-- The distinct keys of a keyed list, in order of first appearance. -/
def groupKeys {κ α : Type} [DecidableEq κ] (l : List (κ × α)) : List κ :=
  (l.map Prod.fst).dedup

/-- The column values of the rows holding key `k`. -/
def groupVals {κ α : Type} [DecidableEq κ] (l : List (κ × α)) (k : κ) : List α :=
  (l.filter (fun p => decide (p.1 = k))).map Prod.snd

/-- `df.groupby(k)[c].agg(f).reset_index()`: one row per distinct key. -/
def groupAgg {κ α β : Type} [DecidableEq κ] (f : List α → β) (l : List (κ × α)) :
    List (κ × β) :=
  (groupKeys l).map (fun k => (k, f (groupVals l k)))

/-- Distinct non-null keys of an `Option`-keyed list: pandas `groupby`
drops rows whose group key is NaN. -/
def groupKeysDropna {κ α : Type} [DecidableEq κ] (l : List (Option κ × α)) : List κ :=
  ((l.map Prod.fst).filterMap id).dedup

def groupValsSome {κ α : Type} [DecidableEq κ] (l : List (Option κ × α)) (k : κ) : List α :=
  (l.filter (fun p => decide (p.1 = some k))).map Prod.snd

/-- `groupby` over a nullable key column: NaN-keyed rows are dropped. -/
def groupAggDropna {κ α β : Type} [DecidableEq κ] (f : List α → β)
    (l : List (Option κ × α)) : List (κ × β) :=
  (groupKeysDropna l).map (fun k => (k, f (groupValsSome l k)))

def insert_sorted {α : Type} (le : α → α → Bool) (a : α) : List α → List α
  | [] => [a]
  | b :: bs => if le a b then a :: b :: bs else b :: insert_sorted le a bs

/-- `df.sort_values(...)`: a permutation of the rows ordered by `le`
(stable insertion sort). -/
def sort_values {α : Type} (le : α → α → Bool) (l : List α) : List α :=
  l.foldr (insert_sorted le) []

/-- `pd.merge(rows, right, how='left')`: every left row survives; matching
right rows are attached (one output row per match), an unmatched left row
gets `none` (NaN columns). -/
def left_join {α β : Type} (rows : List α) (right : List β) (m : α → β → Bool) :
    List (α × Option β) :=
  rows.flatMap (fun a =>
    match right.filter (m a) with
    | [] => [(a, none)]
    | ds => ds.map (fun d => (a, some d)))

/-! ### Stage 1: average positions gained (lines 28-62) -/

structure QualPosRow where
  raceId : Int
  driverId : Int
  qualifyingPosition : Cell
deriving DecidableEq

structure FinishPosRow where
  raceId : Int
  driverId : Int
  raceFinishPosition : Cell
deriving DecidableEq

structure MergedPosRow where
  raceId : Int
  driverId : Int
  qualifyingPosition : Cell
  raceFinishPosition : Cell
deriving DecidableEq

structure CleanPosRow where
  raceId : Int
  driverId : Int
  qualifyingPosition : Rat
  raceFinishPosition : Rat
deriving DecidableEq

def qualifying_positions (qualifying_df : List QualifyingRow) : List QualPosRow :=
  qualifying_df.map (fun q => ⟨q.raceId, q.driverId, q.position⟩)

def race_finish_positions (results_df : List ResultRow) : List FinishPosRow :=
  results_df.map (fun r => ⟨r.raceId, r.driverId, r.positionOrder⟩)

/-- Line 37: inner merge of qualifying and race-finish positions on
`(raceId, driverId)`. -/
def merged_positions (qualifying_df : List QualifyingRow) (results_df : List ResultRow) :
    List MergedPosRow :=
  (qualifying_positions qualifying_df).flatMap (fun q =>
    ((race_finish_positions results_df).filter
        (fun r => r.raceId == q.raceId && r.driverId == q.driverId)).map
      (fun r => ⟨q.raceId, q.driverId, q.qualifyingPosition, r.raceFinishPosition⟩))

/-- Lines 41-45: coerce both position columns to numeric and drop the rows
where either is NaN. -/
def merged_positions_clean (qualifying_df : List QualifyingRow)
    (results_df : List ResultRow) : List CleanPosRow :=
  (merged_positions qualifying_df results_df).filterMap (fun m =>
    match to_numeric m.qualifyingPosition, to_numeric m.raceFinishPosition with
    | some qp, some fp => some ⟨m.raceId, m.driverId, qp, fp⟩
    | _, _ => none)

/-- Line 50: positionsGained = qualifyingPosition - raceFinishPosition. -/
def positionsGained (m : CleanPosRow) : Rat :=
  m.qualifyingPosition - m.raceFinishPosition

/-- Line 57: driverName = forename + ' ' + surname. -/
def driverNameOf (d : DriverRow) : String := d.forename ++ " " ++ d.surname

/-- Lines 53-57: left join with the drivers table and derive driverName;
an unmatched driverId leaves driverName NaN (`none`). -/
def positions_gained_rows (drivers_df : List DriverRow)
    (qualifying_df : List QualifyingRow) (results_df : List ResultRow) :
    List (Option String × Rat) :=
  (left_join (merged_positions_clean qualifying_df results_df) drivers_df
      (fun m d => d.driverId == m.driverId)).map
    (fun p => (p.2.map driverNameOf, positionsGained p.1))

/-- Lines 60-62: group by driverName (NaN names dropped by pandas groupby),
mean of positionsGained, sort descending. -/
def average_positions_gained (drivers_df : List DriverRow)
    (qualifying_df : List QualifyingRow) (results_df : List ResultRow) :
    List (String × Rat) :=
  sort_values (fun a b => decide (b.2 ≤ a.2))
    (groupAggDropna meanOf (positions_gained_rows drivers_df qualifying_df results_df))

/-! ### Stage 2: total career races (lines 66-77) -/

/-- Lines 69-70: distinct raceId count per driverId (`nunique`). -/
def total_career_races (results_df : List ResultRow) : List (Int × Nat) :=
  groupAgg (fun xs => xs.dedup.length) (results_df.map (fun r => (r.driverId, r.raceId)))

/-- Lines 73-76: attach driverName by left join, project, sort descending. -/
def total_career_races_df (drivers_df : List DriverRow) (results_df : List ResultRow) :
    List (Option String × Nat) :=
  sort_values (fun a b => decide (b.2 ≤ a.2))
    ((left_join (total_career_races results_df) drivers_df
        (fun p d => d.driverId == p.1)).map
      (fun p => (p.2.map driverNameOf, p.1.2)))

/-! ### Stage 3: average career finish position (lines 79-94) -/

/-- Line 82: keep only the rows whose positionOrder coerces to a number. -/
def results_df_clean (results_df : List ResultRow) : List ResultRow :=
  results_df.filter (fun r => (to_numeric r.positionOrder).isSome)

/-- Lines 83-87: numeric positionOrder per driverId, reduced by mean. -/
def avg_finish_position (results_df : List ResultRow) : List (Int × Rat) :=
  groupAgg meanOf ((results_df_clean results_df).filterMap
    (fun r => (to_numeric r.positionOrder).map (fun v => (r.driverId, v))))

/-- Lines 90-93: attach driverName, project, sort ascending. -/
def avg_finish_position_df (drivers_df : List DriverRow) (results_df : List ResultRow) :
    List (Option String × Rat) :=
  sort_values (fun a b => decide (a.2 ≤ b.2))
    ((left_join (avg_finish_position results_df) drivers_df
        (fun p d => d.driverId == p.1)).map
      (fun p => (p.2.map driverNameOf, p.1.2)))

/-! ### Stage 4: total career points per driver (lines 96-108) -/

/-- Line 99 (and again line 113): the in-place
`results_df['points'] = pd.to_numeric(results_df['points'], errors='coerce')`. -/
def coerce_points (results_df : List ResultRow) : List ResultRow :=
  results_df.map (fun r => { r with points := coerce_cell r.points })

/-- The loaded results table as observed after the driver-points stage has
run (line 99 mutates the `points` column in place). -/
def results_df_after_driver_points (results_df : List ResultRow) : List ResultRow :=
  coerce_points results_df

/-- Lines 100-101: summed points per driverId (NaN skipped by `.sum()`). -/
def total_driver_points (results_df : List ResultRow) : List (Int × Rat) :=
  groupAgg sum_points
    ((results_df_after_driver_points results_df).map (fun r => (r.driverId, r.points)))

/-- Lines 104-107: attach driverName, project, sort descending. -/
def total_driver_points_df (drivers_df : List DriverRow) (results_df : List ResultRow) :
    List (Option String × Rat) :=
  sort_values (fun a b => decide (b.2 ≤ a.2))
    ((left_join (total_driver_points results_df) drivers_df
        (fun p d => d.driverId == p.1)).map
      (fun p => (p.2.map driverNameOf, p.1.2)))

/-! ### Stage 5: total points per constructor (lines 110-122) -/

/-- The results table as observed after the team-points stage's own
coercion (line 113) has run on the already-coerced table. -/
def results_df_after_team_points (results_df : List ResultRow) : List ResultRow :=
  coerce_points (results_df_after_driver_points results_df)

/-- Lines 114-115: summed points per constructorId. -/
def total_team_points (results_df : List ResultRow) : List (Int × Rat) :=
  groupAgg sum_points
    ((results_df_after_team_points results_df).map (fun r => (r.constructorId, r.points)))

/-- Lines 118-121: attach the constructor name (TeamName), project, sort
descending. -/
def total_team_points_df (constructors_df : List ConstructorRow)
    (results_df : List ResultRow) : List (Option String × Rat) :=
  sort_values (fun a b => decide (b.2 ≤ a.2))
    ((left_join (total_team_points results_df) constructors_df
        (fun p c => c.constructorId == p.1)).map
      (fun p => (p.2.map ConstructorRow.name, p.1.2)))

/-! ### The whole run (lines 14-26 and 125-133) -/

/-- The content of the input directory: each of the five expected CSV files
is present (`some` table) or absent (`none`, `read_csv` raises). -/
structure DataDir where
  drivers : Option (List DriverRow)
  races : Option (List RaceRow)
  results : Option (List ResultRow)
  qualifying : Option (List QualifyingRow)
  constructors : Option (List ConstructorRow)
deriving DecidableEq

structure Outputs where
  out_average_positions_gained : List (String × Rat)
  out_total_career_races : List (Option String × Nat)
  out_average_career_finish_position : List (Option String × Rat)
  out_total_career_points_drivers : List (Option String × Rat)
  out_total_career_points_teams : List (Option String × Rat)
deriving DecidableEq

inductive RunOutcome where
  /-- A `FileNotFoundError` was caught at line 23: the message names the
  missing path and the function returns without computing or writing. -/
  | missingFile (path : String)
  | ok (outs : Outputs)
deriving DecidableEq

/-- `process_f1_data(data_dir)`: the files are read in source order
(drivers, races, results, qualifying, constructors); the first absent one
aborts the run, else the five output tables are produced. -/
def process_f1_data (data_dir : String) (d : DataDir) : RunOutcome :=
  match d.drivers with
  | none => .missingFile (data_dir ++ "/drivers.csv")
  | some drivers_df =>
  match d.races with
  | none => .missingFile (data_dir ++ "/races.csv")
  | some _races_df =>
  match d.results with
  | none => .missingFile (data_dir ++ "/results.csv")
  | some results_df =>
  match d.qualifying with
  | none => .missingFile (data_dir ++ "/qualifying.csv")
  | some qualifying_df =>
  match d.constructors with
  | none => .missingFile (data_dir ++ "/constructors.csv")
  | some constructors_df =>
  .ok
    { out_average_positions_gained :=
        average_positions_gained drivers_df qualifying_df results_df
      out_total_career_races := total_career_races_df drivers_df results_df
      out_average_career_finish_position := avg_finish_position_df drivers_df results_df
      out_total_career_points_drivers := total_driver_points_df drivers_df results_df
      out_total_career_points_teams := total_team_points_df constructors_df results_df }

/-- The files written to `processed_data/` by the run: lines 129-133 run
only when loading succeeded. -/
def writtenFiles : RunOutcome → List String
  | .missingFile _ => []
  | .ok _ =>
    ["average_positions_gained.csv", "total_career_races.csv",
     "average_career_finish_position.csv", "total_career_points_drivers.csv",
     "total_career_points_teams.csv"]

/-! ### Generic lemmas about the table operations -/

theorem insert_sorted_perm {α : Type} (le : α → α → Bool) (a : α) (l : List α) :
    (insert_sorted le a l).Perm (a :: l) := by
  induction l with
  | nil => exact List.Perm.refl _
  | cons b bs ih =>
      by_cases h : le a b = true
      · simp [insert_sorted, h]
      · simp only [insert_sorted, h, if_false]
        exact (ih.cons b).trans (List.Perm.swap a b bs)

theorem sort_values_perm {α : Type} (le : α → α → Bool) (l : List α) :
    (sort_values le l).Perm l := by
  induction l with
  | nil => exact List.Perm.refl _
  | cons a l ih =>
      exact (insert_sorted_perm le a (sort_values le l)).trans (ih.cons a)

theorem mem_sort_values {α : Type} {le : α → α → Bool} {l : List α} {a : α} :
    a ∈ sort_values le l ↔ a ∈ l :=
  (sort_values_perm le l).mem_iff

theorem length_sort_values {α : Type} (le : α → α → Bool) (l : List α) :
    (sort_values le l).length = l.length :=
  (sort_values_perm le l).length_eq

theorem left_join_perm_left {α β : Type} {rows₁ rows₂ : List α} (right : List β)
    (m : α → β → Bool) (h : rows₁.Perm rows₂) :
    (left_join rows₁ right m).Perm (left_join rows₂ right m) :=
  h.flatMap_right _

theorem mem_left_join_of_mem {α β : Type} {rows : List α} {right : List β}
    {m : α → β → Bool} {a : α} (ha : a ∈ rows) :
    ∃ ob, (a, ob) ∈ left_join rows right m := by
  unfold left_join
  cases hf : right.filter (m a) with
  | nil =>
      exact ⟨none, List.mem_flatMap.2 ⟨a, ha, by simp [hf]⟩⟩
  | cons b bs =>
      refine ⟨some b, List.mem_flatMap.2 ⟨a, ha, ?_⟩⟩
      simp only [hf, List.mem_map]
      exact ⟨b, by simp, rfl⟩

theorem left_join_none_of_unmatched {α β : Type} {rows : List α} {right : List β}
    {m : α → β → Bool} {a : α} (ha : a ∈ rows)
    (hu : ∀ b ∈ right, m a b = false) :
    (a, (none : Option β)) ∈ left_join rows right m := by
  unfold left_join
  have hf : right.filter (m a) = [] :=
    List.filter_eq_nil_iff.2 (fun b hb => by simp [hu b hb])
  exact List.mem_flatMap.2 ⟨a, ha, by simp [hf]⟩

theorem mem_left_join {α β : Type} {rows : List α} {right : List β}
    {m : α → β → Bool} {a : α} {ob : Option β}
    (h : (a, ob) ∈ left_join rows right m) :
    a ∈ rows ∧ (∀ b, ob = some b → b ∈ right ∧ m a b = true) := by
  unfold left_join at h
  obtain ⟨a', ha', hmem⟩ := List.mem_flatMap.1 h
  cases hf : right.filter (m a') with
  | nil =>
      rw [hf] at hmem
      simp only [List.mem_singleton, Prod.mk.injEq] at hmem
      obtain ⟨rfl, rfl⟩ := hmem
      exact ⟨ha', fun b hb => by cases hb⟩
  | cons b bs =>
      rw [hf] at hmem
      simp only [List.mem_map, Prod.mk.injEq] at hmem
      obtain ⟨d, hd, ha, hob⟩ := hmem
      subst ha
      subst hob
      have hd' : d ∈ right.filter (m a') := hf ▸ hd
      have hmf := List.mem_filter.1 hd'
      exact ⟨ha', fun b hb => by cases hb; exact hmf⟩

theorem left_join_length {α β : Type} {rows : List α} {right : List β}
    {m : α → β → Bool} (h : ∀ a ∈ rows, (right.filter (m a)).length ≤ 1) :
    (left_join rows right m).length = rows.length := by
  induction rows with
  | nil => rfl
  | cons a rest ih =>
      have hone : (match right.filter (m a) with
          | [] => [(a, (none : Option β))]
          | ds => ds.map (fun d => (a, some d))).length = 1 := by
        cases hf : right.filter (m a) with
        | nil => rfl
        | cons b bs =>
            have := h a (by simp)
            rw [hf] at this
            simp only [List.length_cons] at this
            have hbs : bs = [] := List.length_eq_zero.1 (by omega)
            subst hbs
            rfl
      show ((match right.filter (m a) with
          | [] => [(a, (none : Option β))]
          | ds => ds.map (fun d => (a, some d))) ++ left_join rest right m).length = rest.length + 1
      rw [List.length_append, hone, ih (fun x hx => h x (by simp [hx]))]
      omega

theorem mem_groupAgg {κ α β : Type} [DecidableEq κ] {f : List α → β}
    {l : List (κ × α)} {k : κ} {v : β} :
    (k, v) ∈ groupAgg f l ↔ k ∈ groupKeys l ∧ v = f (groupVals l k) := by
  unfold groupAgg
  simp only [List.mem_map, Prod.mk.injEq]
  constructor
  · rintro ⟨k', hk', rfl, rfl⟩; exact ⟨hk', rfl⟩
  · rintro ⟨hk, rfl⟩; exact ⟨k, hk, rfl, rfl⟩

theorem mem_groupKeys {κ α : Type} [DecidableEq κ] {l : List (κ × α)} {k : κ} :
    k ∈ groupKeys l ↔ k ∈ l.map Prod.fst := List.mem_dedup

theorem groupAgg_map_fst {κ α β : Type} [DecidableEq κ] (f : List α → β)
    (l : List (κ × α)) : (groupAgg f l).map Prod.fst = groupKeys l := by
  simp only [groupAgg, List.map_map]
  exact List.map_congr_left (fun k _ => rfl) |>.trans (List.map_id _)

theorem groupAgg_length {κ α β : Type} [DecidableEq κ] (f : List α → β)
    (l : List (κ × α)) : (groupAgg f l).length = (groupKeys l).length := by
  unfold groupAgg
  exact List.length_map _ _

theorem mem_groupAggDropna {κ α β : Type} [DecidableEq κ] {f : List α → β}
    {l : List (Option κ × α)} {k : κ} {v : β} :
    (k, v) ∈ groupAggDropna f l ↔ k ∈ groupKeysDropna l ∧ v = f (groupValsSome l k) := by
  unfold groupAggDropna
  simp only [List.mem_map, Prod.mk.injEq]
  constructor
  · rintro ⟨k', hk', rfl, rfl⟩; exact ⟨hk', rfl⟩
  · rintro ⟨hk, rfl⟩; exact ⟨k, hk, rfl, rfl⟩

theorem mem_groupKeysDropna {κ α : Type} [DecidableEq κ] {l : List (Option κ × α)}
    {k : κ} : k ∈ groupKeysDropna l ↔ (some k) ∈ l.map Prod.fst := by
  unfold groupKeysDropna
  rw [List.mem_dedup]
  simp [List.mem_filterMap]

theorem meanOf_perm {xs ys : List Rat} (h : xs.Perm ys) : meanOf xs = meanOf ys := by
  unfold meanOf
  rw [h.sum_eq, h.length_eq]

theorem sum_points_perm {xs ys : List Cell} (h : xs.Perm ys) :
    sum_points xs = sum_points ys := by
  unfold sum_points
  exact (h.filterMap _).sum_eq

theorem groupVals_perm {κ α : Type} [DecidableEq κ] {l₁ l₂ : List (κ × α)}
    (h : l₁.Perm l₂) (k : κ) : (groupVals l₁ k).Perm (groupVals l₂ k) :=
  (h.filter _).map _

theorem groupKeys_perm {κ α : Type} [DecidableEq κ] {l₁ l₂ : List (κ × α)}
    (h : l₁.Perm l₂) : (groupKeys l₁).Perm (groupKeys l₂) :=
  (h.map _).dedup

theorem groupAgg_perm {κ α β : Type} [DecidableEq κ] {f : List α → β}
    {l₁ l₂ : List (κ × α)} (hf : ∀ xs ys, xs.Perm ys → f xs = f ys)
    (h : l₁.Perm l₂) : (groupAgg f l₁).Perm (groupAgg f l₂) := by
  unfold groupAgg
  have he : (fun k => ((k : κ), f (groupVals l₁ k))) = fun k => (k, f (groupVals l₂ k)) :=
    funext fun k => by rw [hf _ _ (groupVals_perm h k)]
  rw [he]
  exact (groupKeys_perm h).map _

theorem groupValsSome_perm {κ α : Type} [DecidableEq κ] {l₁ l₂ : List (Option κ × α)}
    (h : l₁.Perm l₂) (k : κ) : (groupValsSome l₁ k).Perm (groupValsSome l₂ k) :=
  (h.filter _).map _

theorem groupKeysDropna_perm {κ α : Type} [DecidableEq κ] {l₁ l₂ : List (Option κ × α)}
    (h : l₁.Perm l₂) : (groupKeysDropna l₁).Perm (groupKeysDropna l₂) :=
  ((h.map _).filterMap _).dedup

theorem groupAggDropna_perm {κ α β : Type} [DecidableEq κ] {f : List α → β}
    {l₁ l₂ : List (Option κ × α)} (hf : ∀ xs ys, xs.Perm ys → f xs = f ys)
    (h : l₁.Perm l₂) : (groupAggDropna f l₁).Perm (groupAggDropna f l₂) := by
  unfold groupAggDropna
  have he : (fun k => ((k : κ), f (groupValsSome l₁ k)))
      = fun k => (k, f (groupValsSome l₂ k)) :=
    funext fun k => by rw [hf _ _ (groupValsSome_perm h k)]
  rw [he]
  exact (groupKeysDropna_perm h).map _

theorem merged_positions_perm {q₁ q₂ : List QualifyingRow} {r₁ r₂ : List ResultRow}
    (hq : q₁.Perm q₂) (hr : r₁.Perm r₂) :
    (merged_positions q₁ r₁).Perm (merged_positions q₂ r₂) := by
  unfold merged_positions qualifying_positions race_finish_positions
  refine List.Perm.trans (List.Perm.flatMap_left _ (fun q _ => ?_))
    ((hq.map _).flatMap_right _)
  exact ((hr.map _).filter _).map _

theorem merged_positions_clean_perm {q₁ q₂ : List QualifyingRow}
    {r₁ r₂ : List ResultRow} (hq : q₁.Perm q₂) (hr : r₁.Perm r₂) :
    (merged_positions_clean q₁ r₁).Perm (merged_positions_clean q₂ r₂) :=
  (merged_positions_perm hq hr).filterMap _

theorem positions_gained_rows_perm (drivers_df : List DriverRow)
    {q₁ q₂ : List QualifyingRow} {r₁ r₂ : List ResultRow}
    (hq : q₁.Perm q₂) (hr : r₁.Perm r₂) :
    (positions_gained_rows drivers_df q₁ r₁).Perm
      (positions_gained_rows drivers_df q₂ r₂) := by
  unfold positions_gained_rows
  exact (left_join_perm_left _ _ (merged_positions_clean_perm hq hr)).map _

theorem sorted_join_perm {β : Type} {t₁ t₂ : List (Int × β)} (h : t₁.Perm t₂)
    (drivers_df : List DriverRow)
    (le : (Option String × β) → (Option String × β) → Bool) :
    (sort_values le ((left_join t₁ drivers_df (fun p d => d.driverId == p.1)).map
        (fun p => (p.2.map driverNameOf, p.1.2)))).Perm
      (sort_values le ((left_join t₂ drivers_df (fun p d => d.driverId == p.1)).map
        (fun p => (p.2.map driverNameOf, p.1.2)))) := by
  have h1 := (left_join_perm_left drivers_df (fun p d => d.driverId == p.1) h).map
    (fun p => (p.2.map driverNameOf, p.1.2))
  exact (sort_values_perm _ _).trans (h1.trans (sort_values_perm _ _).symm)

theorem sorted_team_join_perm {β : Type} {t₁ t₂ : List (Int × β)} (h : t₁.Perm t₂)
    (constructors_df : List ConstructorRow)
    (le : (Option String × β) → (Option String × β) → Bool) :
    (sort_values le ((left_join t₁ constructors_df
        (fun p c => c.constructorId == p.1)).map
        (fun p => (p.2.map ConstructorRow.name, p.1.2)))).Perm
      (sort_values le ((left_join t₂ constructors_df
        (fun p c => c.constructorId == p.1)).map
        (fun p => (p.2.map ConstructorRow.name, p.1.2)))) := by
  have h1 := (left_join_perm_left constructors_df (fun p c => c.constructorId == p.1) h).map
    (fun p => (p.2.map ConstructorRow.name, p.1.2))
  exact (sort_values_perm _ _).trans (h1.trans (sort_values_perm _ _).symm)

theorem groupVals_filterMap {κ α β : Type} [DecidableEq κ] (key : β → κ)
    (val : β → Option α) (l : List β) (k : κ) :
    groupVals (l.filterMap (fun b => (val b).map (fun v => (key b, v)))) k
      = (l.filter (fun b => decide (key b = k))).filterMap val := by
  induction l with
  | nil => rfl
  | cons b bs ih =>
      cases hv : val b <;> by_cases hk : key b = k <;>
        simp [groupVals, List.filterMap_cons, List.filter_cons, hv, hk,
          ← ih, groupVals]

theorem groupVals_map {κ α β : Type} [DecidableEq κ] (key : β → κ) (val : β → α)
    (l : List β) (k : κ) :
    groupVals (l.map (fun b => (key b, val b))) k
      = (l.filter (fun b => decide (key b = k))).map val := by
  induction l with
  | nil => rfl
  | cons b bs ih =>
      by_cases hk : key b = k <;>
        simp [groupVals, List.filter_cons, hk, ← ih, groupVals]

theorem filterMap_filter_isSome {α β : Type} (val : α → Option β) (l : List α) :
    (l.filter (fun a => (val a).isSome)).filterMap val = l.filterMap val := by
  induction l with
  | nil => rfl
  | cons a as ih =>
      cases hv : val a <;> simp [List.filter_cons, List.filterMap_cons, hv, ih]

theorem to_numeric_coerce_cell (c : Cell) : to_numeric (coerce_cell c) = to_numeric c := by
  cases c <;> rfl

theorem coerce_cell_idem (c : Cell) : coerce_cell (coerce_cell c) = coerce_cell c := by
  cases c <;> rfl

theorem coerce_points_idem (results_df : List ResultRow) :
    coerce_points (coerce_points results_df) = coerce_points results_df := by
  unfold coerce_points
  rw [List.map_map]
  exact List.map_congr_left (fun r _ => by simp [Function.comp, coerce_cell_idem])

theorem sum_points_map_coerce (xs : List Cell) :
    sum_points (xs.map coerce_cell) = sum_points xs := by
  unfold sum_points
  rw [List.filterMap_map]
  rw [show to_numeric ∘ coerce_cell = to_numeric from funext to_numeric_coerce_cell]

theorem groupKeys_map_snd {κ α β : Type} [DecidableEq κ] (g : α → β)
    (l : List (κ × α)) :
    groupKeys (l.map (fun p => (p.1, g p.2))) = groupKeys l := by
  unfold groupKeys
  rw [List.map_map]
  rfl

theorem groupVals_map_snd {κ α β : Type} [DecidableEq κ] (g : α → β)
    (l : List (κ × α)) (k : κ) :
    groupVals (l.map (fun p => (p.1, g p.2))) k = (groupVals l k).map g := by
  unfold groupVals
  rw [List.filter_map, List.map_map, List.map_map]
  rfl

theorem groupAgg_map_snd {κ α β γ : Type} [DecidableEq κ] (f : List β → γ)
    (g : α → β) (l : List (κ × α)) :
    groupAgg f (l.map (fun p => (p.1, g p.2))) = groupAgg (fun xs => f (xs.map g)) l := by
  unfold groupAgg
  rw [groupKeys_map_snd]
  exact List.map_congr_left (fun k _ => by rw [groupVals_map_snd])

/-- The driver-points reduction reads the coerced points column, but since
`.sum()` itself skips NaN, its value equals the sum over the loaded column. -/
theorem total_driver_points_eq (results_df : List ResultRow) :
    total_driver_points results_df
      = groupAgg sum_points (results_df.map (fun r => (r.driverId, r.points))) := by
  unfold total_driver_points results_df_after_driver_points coerce_points
  rw [List.map_map]
  have h1 : (results_df.map ((fun r => (r.driverId, r.points)) ∘
        (fun r => { r with points := coerce_cell r.points })))
      = (results_df.map (fun r => (r.driverId, r.points))).map
          (fun p => (p.1, coerce_cell p.2)) := by
    rw [List.map_map]
    rfl
  rw [h1, groupAgg_map_snd]
  congr 1
  funext xs
  exact sum_points_map_coerce xs

/-- Likewise for the team-points reduction over the twice-coerced table. -/
theorem total_team_points_eq (results_df : List ResultRow) :
    total_team_points results_df
      = groupAgg sum_points (results_df.map (fun r => (r.constructorId, r.points))) := by
  unfold total_team_points results_df_after_team_points results_df_after_driver_points
  rw [coerce_points_idem]
  unfold coerce_points
  rw [List.map_map]
  have h1 : (results_df.map ((fun r => (r.constructorId, r.points)) ∘
        (fun r => { r with points := coerce_cell r.points })))
      = (results_df.map (fun r => (r.constructorId, r.points))).map
          (fun p => (p.1, coerce_cell p.2)) := by
    rw [List.map_map]
    rfl
  rw [h1, groupAgg_map_snd]
  congr 1
  funext xs
  exact sum_points_map_coerce xs

theorem groupValsSome_ne_nil {κ α : Type} [DecidableEq κ] {l : List (Option κ × α)}
    {k : κ} (hk : k ∈ groupKeysDropna l) : groupValsSome l k ≠ [] := by
  rw [mem_groupKeysDropna] at hk
  obtain ⟨p, hp, hfst⟩ := List.mem_map.1 hk
  intro hnil
  unfold groupValsSome at hnil
  rw [List.map_eq_nil_iff] at hnil
  have hmem : p ∈ l.filter (fun p => decide (p.1 = some k)) :=
    List.mem_filter.2 ⟨hp, by simp [hfst]⟩
  rw [hnil] at hmem
  cases hmem

theorem mem_merged_positions_clean {qualifying_df : List QualifyingRow}
    {results_df : List ResultRow} {m : CleanPosRow}
    (hm : m ∈ merged_positions_clean qualifying_df results_df) :
    ∃ q ∈ qualifying_df, ∃ r ∈ results_df,
      r.raceId = q.raceId ∧ r.driverId = q.driverId ∧
      to_numeric q.position = some m.qualifyingPosition ∧
      to_numeric r.positionOrder = some m.raceFinishPosition ∧
      m.raceId = q.raceId ∧ m.driverId = q.driverId := by
  unfold merged_positions_clean at hm
  obtain ⟨mp, hmp, heq⟩ := List.mem_filterMap.1 hm
  unfold merged_positions qualifying_positions at hmp
  obtain ⟨qp, hqp, hmem⟩ := List.mem_flatMap.1 hmp
  obtain ⟨q, hq, hqp'⟩ := List.mem_map.1 hqp
  subst hqp'
  obtain ⟨fp, hfp, hmp'⟩ := List.mem_map.1 hmem
  subst hmp'
  have hfp' := List.mem_filter.1 hfp
  unfold race_finish_positions at hfp'
  obtain ⟨r, hr, hfp''⟩ := List.mem_map.1 hfp'.1
  subst hfp''
  have hcond := hfp'.2
  simp only [Bool.and_eq_true, beq_iff_eq] at hcond
  cases hqpn : to_numeric q.position with
  | none => rw [hqpn] at heq; cases heq
  | some qv =>
      cases hfpn : to_numeric r.positionOrder with
      | none => rw [hqpn, hfpn] at heq; cases heq
      | some fv =>
          rw [hqpn, hfpn] at heq
          cases heq
          exact ⟨q, hq, r, hr, hcond.1, hcond.2, hqpn, hfpn, rfl, rfl⟩

theorem filter_key_length_le_one {β : Type} (key : β → Int) {l : List β}
    (h : (l.map key).Nodup) (k : Int) :
    (l.filter (fun b => key b == k)).length ≤ 1 := by
  induction l with
  | nil => simp
  | cons b bs ih =>
      simp only [List.map_cons, List.nodup_cons] at h
      by_cases hk : (key b == k) = true
      · have hnil : bs.filter (fun x => key x == k) = [] := by
          apply List.filter_eq_nil_iff.2
          intro x hx
          rw [beq_iff_eq] at hk
          intro he
          rw [beq_iff_eq] at he
          exact h.1 (by rw [hk, ← he]; exact List.mem_map.2 ⟨x, hx, rfl⟩)
        simp [List.filter_cons, hk, hnil]
      · simp only [List.filter_cons, hk, if_false]
        exact ih h.2

/-! ### The claims -/

/-- C1: for the single-driver fixture drivers = [(1, "Max", "Verstappen")],
qualifying = [(10, 1, 1)], results = [(10, 1, 5, 3, 15)],
constructors = [(5, "Red Bull")], the pipeline succeeds and produces an
average-positions-gained table with the single row ("Max Verstappen", -2)
and a team-points table with the single row ("Red Bull", 15). -/
theorem C1_single_driver_end_to_end :
    process_f1_data "data"
        ⟨some [⟨1, "Max", "Verstappen"⟩], some [⟨10⟩],
         some [⟨10, 1, 5, .num 3, .num 15⟩], some [⟨10, 1, .num 1⟩],
         some [⟨5, "Red Bull"⟩]⟩ =
      .ok ⟨[("Max Verstappen", -2)], [(some "Max Verstappen", 1)],
           [(some "Max Verstappen", 3)], [(some "Max Verstappen", 15)],
           [(some "Red Bull", 15)]⟩ := by
  show RunOutcome.ok _ = _
  norm_num [average_positions_gained, positions_gained_rows, merged_positions_clean,
    merged_positions, qualifying_positions, race_finish_positions, left_join,
    to_numeric, groupAggDropna, groupKeysDropna, groupValsSome, meanOf,
    positionsGained, driverNameOf, sort_values, insert_sorted,
    total_career_races_df, total_career_races, avg_finish_position_df,
    avg_finish_position, results_df_clean, total_driver_points_df,
    total_driver_points, results_df_after_driver_points, coerce_points,
    coerce_cell, total_team_points_df, total_team_points,
    results_df_after_team_points, groupAgg, groupKeys, groupVals, sum_points,
    List.filter, List.flatMap, List.filterMap, List.dedup]
  rfl

/-- C2: if any of the five required input tables is missing, the run ends in
the missing-file outcome (the caught `FileNotFoundError` naming a path) and
no output file is written; deleting `qualifying.csv` in particular makes the
run abort with the path of `qualifying.csv` before any output is written. -/
theorem C2_missing_input_aborts (data_dir : String) (d : DataDir)
    (h : d.drivers = none ∨ d.races = none ∨ d.results = none ∨
      d.qualifying = none ∨ d.constructors = none) :
    (∃ path, process_f1_data data_dir d = .missingFile path) ∧
    writtenFiles (process_f1_data data_dir d) = [] ∧
    (d.qualifying = none → d.drivers ≠ none → d.races ≠ none → d.results ≠ none →
      process_f1_data data_dir d = .missingFile (data_dir ++ "/qualifying.csv")) := by
  obtain ⟨dr, ra, re, qu, co⟩ := d
  cases dr <;> cases ra <;> cases re <;> cases qu <;> cases co <;>
    simp_all [process_f1_data, writtenFiles]

/-- Witness for C2 at a concrete input directory missing `qualifying.csv`. -/
theorem C2_missing_input_aborts_witness :
    ((DataDir.mk (some []) (some []) (some []) none (some [])).drivers = none ∨
     (DataDir.mk (some []) (some []) (some []) none (some [])).races = none ∨
     (DataDir.mk (some []) (some []) (some []) none (some [])).results = none ∨
     (DataDir.mk (some []) (some []) (some []) none (some [])).qualifying = none ∨
     (DataDir.mk (some []) (some []) (some []) none (some [])).constructors = none) ∧
    ((∃ path, process_f1_data "data" (DataDir.mk (some []) (some []) (some []) none (some []))
        = .missingFile path) ∧
     writtenFiles (process_f1_data "data"
        (DataDir.mk (some []) (some []) (some []) none (some []))) = [] ∧
     ((DataDir.mk (some []) (some []) (some []) none (some [])).qualifying = none →
      (DataDir.mk (some []) (some []) (some []) none (some [])).drivers ≠ none →
      (DataDir.mk (some []) (some []) (some []) none (some [])).races ≠ none →
      (DataDir.mk (some []) (some []) (some []) none (some [])).results ≠ none →
      process_f1_data "data" (DataDir.mk (some []) (some []) (some []) none (some []))
        = .missingFile ("data" ++ "/qualifying.csv"))) :=
  ⟨by simp, C2_missing_input_aborts "data" _ (by simp)⟩

/-- C4 counterexample: the claim that no loaded table is mutated fails —
line 99 overwrites the results table's points column in place, so after the
driver-points stage the loaded results table differs from what was loaded
whenever a points cell was non-numeric. -/
theorem C4_points_column_mutated :
    results_df_after_driver_points [⟨10, 1, 5, .num 3, .str "R"⟩]
      ≠ [⟨10, 1, 5, .num 3, .str "R"⟩] := by
  simp [results_df_after_driver_points, coerce_points, coerce_cell, to_numeric]

/-- C4 amended: the drivers, races, qualifying and constructors tables are
read-only, but the results table's points column is overwritten in place
with its numeric coercion by the driver-points stage (line 99) and again by
the team-points stage (line 113).  The coercion is idempotent and preserves
every other column, and `.sum()` skips NaN anyway, so both points reductions
equal the reduction over the originally loaded column: the in-place coercion
contaminates no computation's output. -/
theorem C4_coercion_does_not_contaminate (results_df : List ResultRow) :
    coerce_points (coerce_points results_df) = coerce_points results_df ∧
    total_driver_points results_df
      = groupAgg sum_points (results_df.map (fun r => (r.driverId, r.points))) ∧
    total_team_points results_df
      = groupAgg sum_points (results_df.map (fun r => (r.constructorId, r.points))) ∧
    (coerce_points results_df).map
        (fun r => (r.raceId, r.driverId, r.constructorId, r.positionOrder))
      = results_df.map (fun r => (r.raceId, r.driverId, r.constructorId, r.positionOrder)) :=
  ⟨coerce_points_idem results_df, total_driver_points_eq results_df,
   total_team_points_eq results_df, by
    unfold coerce_points
    rw [List.map_map]
    rfl⟩

theorem filterMap_proj_map_fst {κ α β : Type} (key : β → κ) (val : β → Option α)
    {l : List β} (h : ∀ b ∈ l, (val b).isSome) :
    ((l.filterMap (fun b => (val b).map (fun v => (key b, v)))).map Prod.fst)
      = l.map key := by
  induction l with
  | nil => rfl
  | cons b bs ih =>
      obtain ⟨v, hv⟩ := Option.isSome_iff_exists.1 (h b (by simp))
      simp [List.filterMap_cons, hv, ih (fun x hx => h x (by simp [hx]))]

theorem results_df_clean_isSome {results_df : List ResultRow} {r : ResultRow}
    (h : r ∈ results_df_clean results_df) : (to_numeric r.positionOrder).isSome :=
  (List.mem_filter.1 h).2

/-- A key of the aggregated table whose id matches no row of the name table
still yields an output row, with a `none` (NaN) label. -/
theorem df_none_label {β : Type} {t : List (Int × β)} {drivers_df : List DriverRow}
    {did : Int} (hk : ∃ v, (did, v) ∈ t) (hu : ∀ dr ∈ drivers_df, dr.driverId ≠ did)
    (le : (Option String × β) → (Option String × β) → Bool) :
    ∃ v, ((none : Option String), v) ∈ sort_values le
      ((left_join t drivers_df (fun p d => d.driverId == p.1)).map
        (fun p => (p.2.map driverNameOf, p.1.2))) := by
  obtain ⟨v, hv⟩ := hk
  have hnone := left_join_none_of_unmatched (m := fun p d => d.driverId == p.1) hv
    (fun d hd => beq_eq_false_iff_ne.2 (hu d hd))
  exact ⟨v, mem_sort_values.2 (List.mem_map.2 ⟨((did, v), none), hnone, rfl⟩)⟩

theorem career_races_key_mem {results_df : List ResultRow} {did : Int}
    (h : did ∈ results_df.map ResultRow.driverId) :
    ∃ v, (did, v) ∈ total_career_races results_df := by
  refine ⟨_, mem_groupAgg.2 ⟨?_, rfl⟩⟩
  unfold groupKeys
  rw [List.map_map]
  exact List.mem_dedup.2 h

theorem driver_points_key_mem {results_df : List ResultRow} {did : Int}
    (h : did ∈ results_df.map ResultRow.driverId) :
    ∃ v, (did, v) ∈ total_driver_points results_df := by
  rw [total_driver_points_eq]
  refine ⟨_, mem_groupAgg.2 ⟨?_, rfl⟩⟩
  unfold groupKeys
  rw [List.map_map]
  exact List.mem_dedup.2 h

theorem team_points_key_mem {results_df : List ResultRow} {cid : Int}
    (h : cid ∈ results_df.map ResultRow.constructorId) :
    ∃ v, (cid, v) ∈ total_team_points results_df := by
  rw [total_team_points_eq]
  refine ⟨_, mem_groupAgg.2 ⟨?_, rfl⟩⟩
  unfold groupKeys
  rw [List.map_map]
  exact List.mem_dedup.2 h

theorem avg_finish_key_mem {results_df : List ResultRow} {did : Int}
    (h : did ∈ (results_df_clean results_df).map ResultRow.driverId) :
    ∃ v, (did, v) ∈ avg_finish_position results_df := by
  refine ⟨_, mem_groupAgg.2 ⟨?_, rfl⟩⟩
  unfold groupKeys
  rw [filterMap_proj_map_fst ResultRow.driverId
    (fun r => to_numeric r.positionOrder) (fun r hr => results_df_clean_isSome hr)]
  exact List.mem_dedup.2 h

/-- C3 counterexample: a (raceId, driverId) pair present in both qualifying
and results with numeric positions whose driverId is absent from the drivers
table does NOT contribute a row to the average-positions-gained output: the
row survives the joins but its NaN driverName is dropped by the `groupby`,
so the output is empty even though the merged-and-cleaned data is not. -/
theorem C3_unmatched_driver_dropped_from_average :
    merged_positions_clean [⟨10, 1, Cell.num 1⟩] [⟨10, 1, 5, Cell.num 3, Cell.num 15⟩] ≠ [] ∧
    average_positions_gained [] [⟨10, 1, Cell.num 1⟩] [⟨10, 1, 5, Cell.num 3, Cell.num 15⟩] = [] := by
  constructor
  · simp [merged_positions_clean, merged_positions, qualifying_positions,
      race_finish_positions, to_numeric, List.filter, List.flatMap]
  · rfl

/-- C3 amended: in the four outputs aggregated by driverId/constructorId
before the name join (total races, average finish, driver points, team
points), an identifier with no matching Driver/Constructor row still yields
an output row with a null label; the average-positions-gained output instead
groups by driverName after the left join, so a row whose driverId is absent
from the drivers table gets a NaN name and is dropped — every label of that
output resolves to a driver row. -/
theorem C3_null_labels_except_average (drivers_df : List DriverRow)
    (constructors_df : List ConstructorRow) (qualifying_df : List QualifyingRow)
    (results_df : List ResultRow) :
    (∀ did, did ∈ results_df.map ResultRow.driverId →
      (∀ dr ∈ drivers_df, dr.driverId ≠ did) →
      ∃ v, ((none : Option String), v) ∈ total_career_races_df drivers_df results_df) ∧
    (∀ did, did ∈ (results_df_clean results_df).map ResultRow.driverId →
      (∀ dr ∈ drivers_df, dr.driverId ≠ did) →
      ∃ v, ((none : Option String), v) ∈ avg_finish_position_df drivers_df results_df) ∧
    (∀ did, did ∈ results_df.map ResultRow.driverId →
      (∀ dr ∈ drivers_df, dr.driverId ≠ did) →
      ∃ v, ((none : Option String), v) ∈ total_driver_points_df drivers_df results_df) ∧
    (∀ cid, cid ∈ results_df.map ResultRow.constructorId →
      (∀ c ∈ constructors_df, c.constructorId ≠ cid) →
      ∃ v, ((none : Option String), v) ∈ total_team_points_df constructors_df results_df) ∧
    (∀ name v, (name, v) ∈ average_positions_gained drivers_df qualifying_df results_df →
      ∃ dr ∈ drivers_df, driverNameOf dr = name) := by
  refine ⟨?_, ?_, ?_, ?_, ?_⟩
  · intro did hdid hu
    exact df_none_label (career_races_key_mem hdid) hu _
  · intro did hdid hu
    exact df_none_label (avg_finish_key_mem hdid) hu _
  · intro did hdid hu
    exact df_none_label (driver_points_key_mem hdid) hu _
  · intro cid hcid hu
    obtain ⟨v, hv⟩ := team_points_key_mem hcid
    have hnone := left_join_none_of_unmatched (m := fun p c => c.constructorId == p.1) hv
      (fun c hc => beq_eq_false_iff_ne.2 (hu c hc))
    exact ⟨v, mem_sort_values.2 (List.mem_map.2 ⟨((cid, v), none), hnone, rfl⟩)⟩
  · intro name v h
    have h1 := mem_groupAggDropna.1 (mem_sort_values.1 h)
    have h2 := mem_groupKeysDropna.1 h1.1
    obtain ⟨p, hp, hfst⟩ := List.mem_map.1 h2
    unfold positions_gained_rows at hp
    obtain ⟨jp, hjp, hpe⟩ := List.mem_map.1 hp
    subst hpe
    simp only at hfst
    cases hob : jp.2 with
    | none => rw [hob] at hfst; cases hfst
    | some dr =>
        rw [hob] at hfst
        have hmem : jp.1 ∈ merged_positions_clean qualifying_df results_df ∧
            (∀ b, jp.2 = some b → b ∈ drivers_df ∧ (b.driverId == jp.1.driverId) = true) :=
          mem_left_join hjp
        have hdr := (hmem.2 dr hob).1
        exact ⟨dr, hdr, Option.some.injEq _ _ ▸ (by simpa using hfst)⟩

/-- C5: every value contributing to a driver's AveragePositionsGained row
comes from a (raceId, driverId) pair present in both qualifying and results
whose two positions are numeric after coercion, contributes
qualifyingPosition - raceFinishPosition, and the output value is the
arithmetic mean of the (non-empty) contributing values. -/
theorem C5_average_positions_gained_sources (drivers_df : List DriverRow)
    (qualifying_df : List QualifyingRow) (results_df : List ResultRow)
    (name : String) (v : Rat)
    (h : (name, v) ∈ average_positions_gained drivers_df qualifying_df results_df) :
    groupValsSome (positions_gained_rows drivers_df qualifying_df results_df) name ≠ [] ∧
    v = meanOf (groupValsSome (positions_gained_rows drivers_df qualifying_df results_df) name) ∧
    ∀ g ∈ groupValsSome (positions_gained_rows drivers_df qualifying_df results_df) name,
      ∃ q ∈ qualifying_df, ∃ r ∈ results_df, ∃ qp fp : Rat,
        r.raceId = q.raceId ∧ r.driverId = q.driverId ∧
        to_numeric q.position = some qp ∧ to_numeric r.positionOrder = some fp ∧
        g = qp - fp := by
  have h1 := mem_groupAggDropna.1 (mem_sort_values.1 h)
  refine ⟨groupValsSome_ne_nil h1.1, h1.2, ?_⟩
  intro g hg
  unfold groupValsSome at hg
  obtain ⟨p, hp, hpe⟩ := List.mem_map.1 hg
  have hpf := List.mem_filter.1 hp
  unfold positions_gained_rows at hpf
  obtain ⟨jp, hjp, hje⟩ := List.mem_map.1 hpf.1
  have hm1 : jp.1 ∈ merged_positions_clean qualifying_df results_df ∧
      (∀ b, jp.2 = some b → b ∈ drivers_df ∧ (b.driverId == jp.1.driverId) = true) :=
    mem_left_join hjp
  obtain ⟨q, hq, r, hr, hrq, hrd, hqp, hfp, _, _⟩ := mem_merged_positions_clean hm1.1
  refine ⟨q, hq, r, hr, jp.1.qualifyingPosition, jp.1.raceFinishPosition,
    hrq, hrd, hqp, hfp, ?_⟩
  rw [← hpe, ← hje]
  rfl

/-- Witness for C5 at the single-driver fixture: the only output row is
("Max Verstappen", -2). -/
theorem C5_average_positions_gained_sources_witness :
    (("Max Verstappen", (-2 : Rat)) ∈ average_positions_gained
      [⟨1, "Max", "Verstappen"⟩] [⟨10, 1, .num 1⟩] [⟨10, 1, 5, .num 3, .num 15⟩]) ∧
    (groupValsSome (positions_gained_rows [⟨1, "Max", "Verstappen"⟩]
        [⟨10, 1, .num 1⟩] [⟨10, 1, 5, .num 3, .num 15⟩]) "Max Verstappen" ≠ [] ∧
     (-2 : Rat) = meanOf (groupValsSome (positions_gained_rows [⟨1, "Max", "Verstappen"⟩]
        [⟨10, 1, .num 1⟩] [⟨10, 1, 5, .num 3, .num 15⟩]) "Max Verstappen") ∧
     ∀ g ∈ groupValsSome (positions_gained_rows [⟨1, "Max", "Verstappen"⟩]
        [⟨10, 1, .num 1⟩] [⟨10, 1, 5, .num 3, .num 15⟩]) "Max Verstappen",
      ∃ q ∈ [(⟨10, 1, .num 1⟩ : QualifyingRow)],
        ∃ r ∈ [(⟨10, 1, 5, .num 3, .num 15⟩ : ResultRow)], ∃ qp fp : Rat,
        r.raceId = q.raceId ∧ r.driverId = q.driverId ∧
        to_numeric q.position = some qp ∧ to_numeric r.positionOrder = some fp ∧
        g = qp - fp) :=
  ⟨by
    norm_num [average_positions_gained, positions_gained_rows, merged_positions_clean,
      merged_positions, qualifying_positions, race_finish_positions, left_join,
      to_numeric, groupAggDropna, groupKeysDropna, groupValsSome, meanOf,
      positionsGained, driverNameOf, sort_values, insert_sorted,
      List.filter, List.flatMap, List.filterMap, List.dedup]
    rfl,
   C5_average_positions_gained_sources [⟨1, "Max", "Verstappen"⟩]
    [⟨10, 1, .num 1⟩] [⟨10, 1, 5, .num 3, .num 15⟩] "Max Verstappen" (-2) (by
    norm_num [average_positions_gained, positions_gained_rows, merged_positions_clean,
      merged_positions, qualifying_positions, race_finish_positions, left_join,
      to_numeric, groupAggDropna, groupKeysDropna, groupValsSome, meanOf,
      positionsGained, driverNameOf, sort_values, insert_sorted,
      List.filter, List.flatMap, List.filterMap, List.dedup]
    rfl)⟩

/-- C6: a driver's AverageFinishPosition is the arithmetic mean over only
those of the driver's result rows whose positionOrder coerces to a number —
non-numeric rows are excluded from both numerator and denominator. -/
theorem C6_average_finish_excludes_nonnumeric (results_df : List ResultRow)
    (did : Int) (v : Rat) (h : (did, v) ∈ avg_finish_position results_df) :
    v = meanOf ((results_df.filter (fun r => r.driverId == did)).filterMap
      (fun r => to_numeric r.positionOrder)) := by
  obtain ⟨hk, hv⟩ := mem_groupAgg.1 h
  rw [hv, groupVals_filterMap ResultRow.driverId (fun r => to_numeric r.positionOrder)]
  unfold results_df_clean
  rw [List.filter_comm]
  exact congrArg meanOf (filterMap_filter_isSome (fun r => to_numeric r.positionOrder)
    (results_df.filter (fun r => r.driverId == did)))

/-- Witness for C6: a driver with positionOrder values {1, 2, "R"} gets
average finish position 3/2 = 1.5, the "R" row excluded from numerator and
denominator. -/
theorem C6_average_finish_excludes_nonnumeric_witness :
    ((1, (3 : Rat)/2) ∈ avg_finish_position
      [⟨10, 1, 5, .num 1, .num 0⟩, ⟨11, 1, 5, .num 2, .num 0⟩, ⟨12, 1, 5, .str "R", .num 0⟩]) ∧
    ((3 : Rat)/2 = meanOf ((([⟨10, 1, 5, .num 1, .num 0⟩, ⟨11, 1, 5, .num 2, .num 0⟩,
        ⟨12, 1, 5, .str "R", .num 0⟩] : List ResultRow).filter
          (fun r => r.driverId == 1)).filterMap (fun r => to_numeric r.positionOrder))) :=
  ⟨by
    norm_num [avg_finish_position, results_df_clean, to_numeric, groupAgg,
      groupKeys, groupVals, meanOf, List.filter, List.filterMap, List.dedup],
   C6_average_finish_excludes_nonnumeric
    [⟨10, 1, 5, .num 1, .num 0⟩, ⟨11, 1, 5, .num 2, .num 0⟩, ⟨12, 1, 5, .str "R", .num 0⟩]
    1 ((3 : Rat)/2) (by
    norm_num [avg_finish_position, results_df_clean, to_numeric, groupAgg,
      groupKeys, groupVals, meanOf, List.filter, List.filterMap, List.dedup])⟩

/-- C7: a driver's TotalCareerRaces equals the number of distinct raceId
values among that driver's result rows (duplicates counted once), and the
reduction is unchanged by arbitrary replacement of every row's
positionOrder and points cells (finish validity is irrelevant). -/
theorem C7_total_career_races_distinct (results_df : List ResultRow)
    (did : Int) (n : Nat) (h : (did, n) ∈ total_career_races results_df) :
    n = ((results_df.filter (fun r => r.driverId == did)).map
      ResultRow.raceId).toFinset.card ∧
    ∀ f : ResultRow → Cell × Cell,
      total_career_races (results_df.map (fun r =>
        { r with positionOrder := (f r).1, points := (f r).2 }))
      = total_career_races results_df := by
  constructor
  · obtain ⟨hk, hv⟩ := mem_groupAgg.1 h
    rw [hv, groupVals_map ResultRow.driverId ResultRow.raceId, List.card_toFinset]
    rfl
  · intro f
    unfold total_career_races
    rw [List.map_map]
    rfl

/-- Witness for C7: driver 1 has result rows in races {10, 10, 11} (one a
retirement), and TotalCareerRaces is 2. -/
theorem C7_total_career_races_distinct_witness :
    ((1, 2) ∈ total_career_races
      [⟨10, 1, 5, .num 3, .num 1⟩, ⟨10, 1, 5, .str "R", .num 0⟩, ⟨11, 1, 5, .num 2, .num 2⟩]) ∧
    ((2 : Nat) = ((([⟨10, 1, 5, .num 3, .num 1⟩, ⟨10, 1, 5, .str "R", .num 0⟩,
        ⟨11, 1, 5, .num 2, .num 2⟩] : List ResultRow).filter
        (fun r => r.driverId == 1)).map ResultRow.raceId).toFinset.card ∧
     ∀ f : ResultRow → Cell × Cell,
      total_career_races (([⟨10, 1, 5, .num 3, .num 1⟩, ⟨10, 1, 5, .str "R", .num 0⟩,
          ⟨11, 1, 5, .num 2, .num 2⟩] : List ResultRow).map (fun r =>
        { r with positionOrder := (f r).1, points := (f r).2 }))
      = total_career_races [⟨10, 1, 5, .num 3, .num 1⟩, ⟨10, 1, 5, .str "R", .num 0⟩,
          ⟨11, 1, 5, .num 2, .num 2⟩]) :=
  ⟨by
    norm_num [total_career_races, groupAgg, groupKeys, groupVals,
      List.filter, List.dedup],
   C7_total_career_races_distinct
    [⟨10, 1, 5, .num 3, .num 1⟩, ⟨10, 1, 5, .str "R", .num 0⟩, ⟨11, 1, 5, .num 2, .num 2⟩]
    1 2 (by
    norm_num [total_career_races, groupAgg, groupKeys, groupVals,
      List.filter, List.dedup])⟩

/-- C8: the three career reductions are keyed by driverId — their key
columns are exactly the distinct driverIds of their source rows, the name is
attached only afterward — and (when the drivers table's key is unique, as
the data model requires) the displayed tables have one row per distinct
driverId, so two distinct drivers sharing a full name are never merged. -/
theorem C8_reductions_keyed_by_driverId (drivers_df : List DriverRow)
    (results_df : List ResultRow)
    (hnodup : (drivers_df.map DriverRow.driverId).Nodup) :
    (total_career_races results_df).map Prod.fst
      = (results_df.map ResultRow.driverId).dedup ∧
    (avg_finish_position results_df).map Prod.fst
      = ((results_df_clean results_df).map ResultRow.driverId).dedup ∧
    (total_driver_points results_df).map Prod.fst
      = (results_df.map ResultRow.driverId).dedup ∧
    (total_career_races_df drivers_df results_df).length
      = (results_df.map ResultRow.driverId).dedup.length ∧
    (avg_finish_position_df drivers_df results_df).length
      = ((results_df_clean results_df).map ResultRow.driverId).dedup.length ∧
    (total_driver_points_df drivers_df results_df).length
      = (results_df.map ResultRow.driverId).dedup.length := by
  have hraces : (total_career_races results_df).map Prod.fst
      = (results_df.map ResultRow.driverId).dedup := by
    unfold total_career_races
    rw [groupAgg_map_fst]
    unfold groupKeys
    rw [List.map_map]
    rfl
  have hfinish : (avg_finish_position results_df).map Prod.fst
      = ((results_df_clean results_df).map ResultRow.driverId).dedup := by
    unfold avg_finish_position
    rw [groupAgg_map_fst]
    unfold groupKeys
    rw [filterMap_proj_map_fst ResultRow.driverId
      (fun r => to_numeric r.positionOrder) (fun r hr => results_df_clean_isSome hr)]
  have hpoints : (total_driver_points results_df).map Prod.fst
      = (results_df.map ResultRow.driverId).dedup := by
    rw [total_driver_points_eq, groupAgg_map_fst]
    unfold groupKeys
    rw [List.map_map]
    rfl
  refine ⟨hraces, hfinish, hpoints, ?_, ?_, ?_⟩
  · unfold total_career_races_df
    rw [length_sort_values, List.length_map,
      left_join_length (fun p _ => filter_key_length_le_one DriverRow.driverId hnodup p.1),
      ← List.length_map _ Prod.fst, hraces]
  · unfold avg_finish_position_df
    rw [length_sort_values, List.length_map,
      left_join_length (fun p _ => filter_key_length_le_one DriverRow.driverId hnodup p.1),
      ← List.length_map _ Prod.fst, hfinish]
  · unfold total_driver_points_df
    rw [length_sort_values, List.length_map,
      left_join_length (fun p _ => filter_key_length_le_one DriverRow.driverId hnodup p.1),
      ← List.length_map _ Prod.fst, hpoints]

/-- Witness for C8: two distinct drivers (ids 1 and 2) named identically
"Max Verstappen" stay two separate rows in each per-driver table. -/
theorem C8_reductions_keyed_by_driverId_witness :
    (([⟨1, "Max", "Verstappen"⟩, ⟨2, "Max", "Verstappen"⟩].map DriverRow.driverId).Nodup) ∧
    ((total_career_races [⟨10, 1, 5, .num 1, .num 5⟩, ⟨10, 2, 5, .num 2, .num 3⟩]).map Prod.fst
      = (([⟨10, 1, 5, .num 1, .num 5⟩, ⟨10, 2, 5, .num 2, .num 3⟩] : List ResultRow).map
          ResultRow.driverId).dedup ∧
     (avg_finish_position [⟨10, 1, 5, .num 1, .num 5⟩, ⟨10, 2, 5, .num 2, .num 3⟩]).map Prod.fst
      = ((results_df_clean [⟨10, 1, 5, .num 1, .num 5⟩, ⟨10, 2, 5, .num 2, .num 3⟩]).map
          ResultRow.driverId).dedup ∧
     (total_driver_points [⟨10, 1, 5, .num 1, .num 5⟩, ⟨10, 2, 5, .num 2, .num 3⟩]).map Prod.fst
      = (([⟨10, 1, 5, .num 1, .num 5⟩, ⟨10, 2, 5, .num 2, .num 3⟩] : List ResultRow).map
          ResultRow.driverId).dedup ∧
     (total_career_races_df [⟨1, "Max", "Verstappen"⟩, ⟨2, "Max", "Verstappen"⟩]
        [⟨10, 1, 5, .num 1, .num 5⟩, ⟨10, 2, 5, .num 2, .num 3⟩]).length
      = (([⟨10, 1, 5, .num 1, .num 5⟩, ⟨10, 2, 5, .num 2, .num 3⟩] : List ResultRow).map
          ResultRow.driverId).dedup.length ∧
     (avg_finish_position_df [⟨1, "Max", "Verstappen"⟩, ⟨2, "Max", "Verstappen"⟩]
        [⟨10, 1, 5, .num 1, .num 5⟩, ⟨10, 2, 5, .num 2, .num 3⟩]).length
      = ((results_df_clean [⟨10, 1, 5, .num 1, .num 5⟩, ⟨10, 2, 5, .num 2, .num 3⟩]).map
          ResultRow.driverId).dedup.length ∧
     (total_driver_points_df [⟨1, "Max", "Verstappen"⟩, ⟨2, "Max", "Verstappen"⟩]
        [⟨10, 1, 5, .num 1, .num 5⟩, ⟨10, 2, 5, .num 2, .num 3⟩]).length
      = (([⟨10, 1, 5, .num 1, .num 5⟩, ⟨10, 2, 5, .num 2, .num 3⟩] : List ResultRow).map
          ResultRow.driverId).dedup.length) ∧
    (([⟨10, 1, 5, .num 1, .num 5⟩, ⟨10, 2, 5, .num 2, .num 3⟩] : List ResultRow).map
        ResultRow.driverId).dedup.length = 2 :=
  ⟨by decide,
   C8_reductions_keyed_by_driverId [⟨1, "Max", "Verstappen"⟩, ⟨2, "Max", "Verstappen"⟩]
    [⟨10, 1, 5, .num 1, .num 5⟩, ⟨10, 2, 5, .num 2, .num 3⟩] (by decide),
   by decide⟩

/-- C10: an id whose every result row carries a non-numeric points value
still appears in the points reductions with a summed value of 0 (the sum of
an all-NaN group is 0, not NaN), and hence contributes a row with value 0 to
the displayed driver-points and team-points tables. -/
theorem C10_all_nan_points_sum_to_zero (drivers_df : List DriverRow)
    (constructors_df : List ConstructorRow) (results_df : List ResultRow) :
    (∀ did, did ∈ results_df.map ResultRow.driverId →
      (∀ r ∈ results_df, r.driverId = did → to_numeric r.points = none) →
      (did, (0 : Rat)) ∈ total_driver_points results_df ∧
      ∃ lbl, (lbl, (0 : Rat)) ∈ total_driver_points_df drivers_df results_df) ∧
    (∀ cid, cid ∈ results_df.map ResultRow.constructorId →
      (∀ r ∈ results_df, r.constructorId = cid → to_numeric r.points = none) →
      (cid, (0 : Rat)) ∈ total_team_points results_df ∧
      ∃ lbl, (lbl, (0 : Rat)) ∈ total_team_points_df constructors_df results_df) := by
  constructor
  · intro did hdid hnan
    have hzero : sum_points (groupVals
        (results_df.map (fun r => (r.driverId, r.points))) did) = 0 := by
      rw [groupVals_map ResultRow.driverId ResultRow.points]
      unfold sum_points
      rw [List.filterMap_map]
      rw [List.filterMap_eq_nil_iff.2 (fun r hr => by
        have hm := List.mem_filter.1 hr
        exact hnan r hm.1 (by simpa using hm.2))]
      rfl
    have hmem : (did, (0 : Rat)) ∈ total_driver_points results_df := by
      rw [total_driver_points_eq]
      refine mem_groupAgg.2 ⟨?_, hzero.symm⟩
      unfold groupKeys
      rw [List.map_map]
      exact List.mem_dedup.2 hdid
    refine ⟨hmem, ?_⟩
    obtain ⟨ob, hob⟩ :=
      @mem_left_join_of_mem _ _ _ drivers_df (fun p d => d.driverId == p.1) _ hmem
    exact ⟨ob.map driverNameOf,
      mem_sort_values.2 (List.mem_map.2 ⟨((did, 0), ob), hob, rfl⟩)⟩
  · intro cid hcid hnan
    have hzero : sum_points (groupVals
        (results_df.map (fun r => (r.constructorId, r.points))) cid) = 0 := by
      rw [groupVals_map ResultRow.constructorId ResultRow.points]
      unfold sum_points
      rw [List.filterMap_map]
      rw [List.filterMap_eq_nil_iff.2 (fun r hr => by
        have hm := List.mem_filter.1 hr
        exact hnan r hm.1 (by simpa using hm.2))]
      rfl
    have hmem : (cid, (0 : Rat)) ∈ total_team_points results_df := by
      rw [total_team_points_eq]
      refine mem_groupAgg.2 ⟨?_, hzero.symm⟩
      unfold groupKeys
      rw [List.map_map]
      exact List.mem_dedup.2 hcid
    refine ⟨hmem, ?_⟩
    obtain ⟨ob, hob⟩ :=
      @mem_left_join_of_mem _ _ _ constructors_df (fun p c => c.constructorId == p.1) _ hmem
    exact ⟨ob.map ConstructorRow.name,
      mem_sort_values.2 (List.mem_map.2 ⟨((cid, 0), ob), hob, rfl⟩)⟩

/-- Witness for C10: driver 1 and constructor 5 whose only result row has
points "R" still get rows summing to 0. -/
theorem C10_all_nan_points_sum_to_zero_witness :
    (1 ∈ ([⟨10, 1, 5, Cell.num 3, Cell.str "R"⟩] : List ResultRow).map ResultRow.driverId) ∧
    (∀ r ∈ ([⟨10, 1, 5, Cell.num 3, Cell.str "R"⟩] : List ResultRow),
      r.driverId = 1 → to_numeric r.points = none) ∧
    ((1, (0 : Rat)) ∈ total_driver_points [⟨10, 1, 5, Cell.num 3, Cell.str "R"⟩] ∧
     ∃ lbl, (lbl, (0 : Rat)) ∈ total_driver_points_df [] [⟨10, 1, 5, Cell.num 3, Cell.str "R"⟩]) ∧
    ((5, (0 : Rat)) ∈ total_team_points [⟨10, 1, 5, Cell.num 3, Cell.str "R"⟩] ∧
     ∃ lbl, (lbl, (0 : Rat)) ∈ total_team_points_df [] [⟨10, 1, 5, Cell.num 3, Cell.str "R"⟩]) :=
  ⟨by simp, by simp [to_numeric],
   (C10_all_nan_points_sum_to_zero [] [] [⟨10, 1, 5, Cell.num 3, Cell.str "R"⟩]).1 1
    (by simp) (by simp [to_numeric]),
   (C10_all_nan_points_sum_to_zero [] [] [⟨10, 1, 5, Cell.num 3, Cell.str "R"⟩]).2 5
    (by simp) (by simp [to_numeric])⟩

/-- C9: permuting the rows of the results and qualifying tables changes no
per-key value in any of the five output tables — each output computed from
the permuted inputs has exactly the same rows (key-value pairs). -/
theorem C9_order_independence (drivers_df : List DriverRow)
    (constructors_df : List ConstructorRow)
    {q₁ q₂ : List QualifyingRow} {r₁ r₂ : List ResultRow}
    (hq : q₁.Perm q₂) (hr : r₁.Perm r₂) :
    (∀ x, x ∈ average_positions_gained drivers_df q₁ r₁ ↔
      x ∈ average_positions_gained drivers_df q₂ r₂) ∧
    (∀ x, x ∈ total_career_races_df drivers_df r₁ ↔
      x ∈ total_career_races_df drivers_df r₂) ∧
    (∀ x, x ∈ avg_finish_position_df drivers_df r₁ ↔
      x ∈ avg_finish_position_df drivers_df r₂) ∧
    (∀ x, x ∈ total_driver_points_df drivers_df r₁ ↔
      x ∈ total_driver_points_df drivers_df r₂) ∧
    (∀ x, x ∈ total_team_points_df constructors_df r₁ ↔
      x ∈ total_team_points_df constructors_df r₂) := by
  refine ⟨?_, ?_, ?_, ?_, ?_⟩
  · intro x
    have hperm : (average_positions_gained drivers_df q₁ r₁).Perm
        (average_positions_gained drivers_df q₂ r₂) := by
      unfold average_positions_gained
      exact (sort_values_perm _ _).trans
        ((groupAggDropna_perm (fun _ _ hp => meanOf_perm hp)
          (positions_gained_rows_perm drivers_df hq hr)).trans
            (sort_values_perm _ _).symm)
    exact hperm.mem_iff
  · intro x
    have ht : (total_career_races r₁).Perm (total_career_races r₂) := by
      unfold total_career_races
      exact groupAgg_perm (fun _ _ hp => hp.dedup.length_eq) (hr.map _)
    exact (sorted_join_perm ht drivers_df _).mem_iff
  · intro x
    have ht : (avg_finish_position r₁).Perm (avg_finish_position r₂) := by
      unfold avg_finish_position results_df_clean
      exact groupAgg_perm (fun _ _ hp => meanOf_perm hp) ((hr.filter _).filterMap _)
    exact (sorted_join_perm ht drivers_df _).mem_iff
  · intro x
    have ht : (total_driver_points r₁).Perm (total_driver_points r₂) := by
      unfold total_driver_points results_df_after_driver_points coerce_points
      exact groupAgg_perm (fun _ _ hp => sum_points_perm hp) ((hr.map _).map _)
    exact (sorted_join_perm ht drivers_df _).mem_iff
  · intro x
    have ht : (total_team_points r₁).Perm (total_team_points r₂) := by
      unfold total_team_points results_df_after_team_points
        results_df_after_driver_points coerce_points
      exact groupAgg_perm (fun _ _ hp => sum_points_perm hp) (((hr.map _).map _).map _)
    exact (sorted_team_join_perm ht constructors_df _).mem_iff

/-- Witness for C9 at concrete two-row tables in swapped order. -/
theorem C9_order_independence_witness :
    (([⟨10, 1, Cell.num 1⟩, ⟨11, 1, Cell.num 3⟩] : List QualifyingRow).Perm
      [⟨11, 1, Cell.num 3⟩, ⟨10, 1, Cell.num 1⟩]) ∧
    (([⟨10, 1, 5, Cell.num 2, Cell.num 10⟩, ⟨11, 1, 5, Cell.num 1, Cell.num 15⟩] :
        List ResultRow).Perm
      [⟨11, 1, 5, Cell.num 1, Cell.num 15⟩, ⟨10, 1, 5, Cell.num 2, Cell.num 10⟩]) ∧
    ((∀ x, x ∈ average_positions_gained [⟨1, "Max", "Verstappen"⟩]
        [⟨10, 1, Cell.num 1⟩, ⟨11, 1, Cell.num 3⟩]
        [⟨10, 1, 5, Cell.num 2, Cell.num 10⟩, ⟨11, 1, 5, Cell.num 1, Cell.num 15⟩] ↔
      x ∈ average_positions_gained [⟨1, "Max", "Verstappen"⟩]
        [⟨11, 1, Cell.num 3⟩, ⟨10, 1, Cell.num 1⟩]
        [⟨11, 1, 5, Cell.num 1, Cell.num 15⟩, ⟨10, 1, 5, Cell.num 2, Cell.num 10⟩]) ∧
     (∀ x, x ∈ total_career_races_df [⟨1, "Max", "Verstappen"⟩]
        [⟨10, 1, 5, Cell.num 2, Cell.num 10⟩, ⟨11, 1, 5, Cell.num 1, Cell.num 15⟩] ↔
      x ∈ total_career_races_df [⟨1, "Max", "Verstappen"⟩]
        [⟨11, 1, 5, Cell.num 1, Cell.num 15⟩, ⟨10, 1, 5, Cell.num 2, Cell.num 10⟩]) ∧
     (∀ x, x ∈ avg_finish_position_df [⟨1, "Max", "Verstappen"⟩]
        [⟨10, 1, 5, Cell.num 2, Cell.num 10⟩, ⟨11, 1, 5, Cell.num 1, Cell.num 15⟩] ↔
      x ∈ avg_finish_position_df [⟨1, "Max", "Verstappen"⟩]
        [⟨11, 1, 5, Cell.num 1, Cell.num 15⟩, ⟨10, 1, 5, Cell.num 2, Cell.num 10⟩]) ∧
     (∀ x, x ∈ total_driver_points_df [⟨1, "Max", "Verstappen"⟩]
        [⟨10, 1, 5, Cell.num 2, Cell.num 10⟩, ⟨11, 1, 5, Cell.num 1, Cell.num 15⟩] ↔
      x ∈ total_driver_points_df [⟨1, "Max", "Verstappen"⟩]
        [⟨11, 1, 5, Cell.num 1, Cell.num 15⟩, ⟨10, 1, 5, Cell.num 2, Cell.num 10⟩]) ∧
     (∀ x, x ∈ total_team_points_df [⟨5, "Red Bull"⟩]
        [⟨10, 1, 5, Cell.num 2, Cell.num 10⟩, ⟨11, 1, 5, Cell.num 1, Cell.num 15⟩] ↔
      x ∈ total_team_points_df [⟨5, "Red Bull"⟩]
        [⟨11, 1, 5, Cell.num 1, Cell.num 15⟩, ⟨10, 1, 5, Cell.num 2, Cell.num 10⟩])) :=
  ⟨List.Perm.swap _ _ _, List.Perm.swap _ _ _,
   C9_order_independence [⟨1, "Max", "Verstappen"⟩] [⟨5, "Red Bull"⟩]
    (List.Perm.swap _ _ _) (List.Perm.swap _ _ _)⟩

/-- Witness for the amended C3: with empty drivers and constructors tables,
the id-keyed points outputs still carry null-label rows for id 1 / id 5. -/
theorem C3_null_labels_except_average_witness :
    (1 ∈ ([⟨10, 1, 5, Cell.num 3, Cell.num 15⟩] : List ResultRow).map ResultRow.driverId) ∧
    (∀ dr ∈ ([] : List DriverRow), dr.driverId ≠ 1) ∧
    (5 ∈ ([⟨10, 1, 5, Cell.num 3, Cell.num 15⟩] : List ResultRow).map ResultRow.constructorId) ∧
    (∀ c ∈ ([] : List ConstructorRow), c.constructorId ≠ 5) ∧
    (∃ v, ((none : Option String), v) ∈
      total_driver_points_df [] [⟨10, 1, 5, Cell.num 3, Cell.num 15⟩]) ∧
    (∃ v, ((none : Option String), v) ∈
      total_team_points_df [] [⟨10, 1, 5, Cell.num 3, Cell.num 15⟩]) :=
  ⟨by simp, by simp, by simp, by simp,
   (C3_null_labels_except_average [] [] [] [⟨10, 1, 5, Cell.num 3, Cell.num 15⟩]).2.2.1 1
    (by simp) (by simp),
   (C3_null_labels_except_average [] [] [] [⟨10, 1, 5, Cell.num 3, Cell.num 15⟩]).2.2.2.1 5
    (by simp) (by simp)⟩
